import Mathlib

/-!
Shallow embedding of the chrome-vm-backend VM lifecycle services:
`src/services/realVMService.js` (its Docker-backed variant and its
Cloudflare-Workers variant), `src/services/railwayVMService.js` and
`src/services/googleCloudVMService.js`.

Backend effects (Docker daemon calls, HTTP calls, timers) are modelled as
explicit outcome parameters of type `Except String _`; the in-memory `Map`
registries are association lists; JS falsy defaulting on strings
(`x || d`) is `jsOr`.
-/

namespace ChromeVM

/-- JS `s || d` for strings: the empty string is falsy. -/
def jsOr (s d : String) : String := if s = "" then d else s

/-- A JS `Map` keyed by vm id, as an association list. -/
abbrev Registry (α : Type) : Type := List (String × α)

/-- `Map.get`: the first entry with the given key. -/
def Registry.find {α : Type} (r : Registry α) (k : String) : Option α :=
  (r.find? (fun p => p.1 == k)).map Prod.snd

/-- `Map.delete`: remove the entries with the given key. -/
def Registry.erase {α : Type} (r : Registry α) (k : String) : Registry α :=
  r.filter (fun p => !(p.1 == k))

/-- `Map.set`: bind the key to the value, overwriting any previous binding. -/
def Registry.set {α : Type} (r : Registry α) (k : String) (v : α) : Registry α :=
  (k, v) :: Registry.erase r k

/-- The VM descriptor object built by the `realVMService` variants. The
fields cover the union of the Docker-variant and Cloudflare-variant object
shapes; a field absent on a given object is `none` (or `""`). `container`
models the live dockerode container reference stored by the Docker variant,
identified by its container id. -/
structure VM where
  containerId : Option String := none
  containerName : String := ""
  novncPort : Nat := 0
  agentPort : Nat := 0
  novncUrl : String := ""
  agentUrl : String := ""
  status : String := ""
  serverId : String := ""
  serverName : String := ""
  createdVia : String := ""
  container : Option String := none
  vmId : Option String := none
  error : Option String := none
  lastActivity : String := ""
  deriving DecidableEq, Repr

namespace Docker

/-- Mutable state of the Docker-variant `RealVMService`: the VM registry
and the NoVNC port counter (`novncPortStart = 6080`). -/
structure Service where
  runningVMs : Registry VM := []
  currentPort : Nat := 6080
  deriving DecidableEq, Repr

/-- The freshly constructed service: empty `Map`, counter at 6080. -/
def initService : Service := {}

/-- `isAvailable`: `docker.ping()`; `true` on success, the catch block
returns `false`. -/
def isAvailable (ping : Except String Unit) : Except String Bool :=
  match ping with
  | .ok _ => .ok true
  | .error _ => .ok false

/-- `getNextPort`: return the counter and increment it; no bound check. -/
def getNextPort (s : Service) : Nat × Service :=
  (s.currentPort, { s with currentPort := s.currentPort + 1 })

def railwayBase : String := "https://chrome-vm-backend-production.up.railway.app"

/-- `createMockVM`: synthesize the enhanced mock descriptor (allocating a
port) and register it. The `name` argument is accepted but unused, as in
the source. -/
def createMockVM (vmId _name serverId : String) (s : Service) : VM × Service :=
  let p := getNextPort s
  let mockVM : VM := {
    containerId := some ("mock-vm-" ++ vmId)
    containerName := "mock-vm-" ++ vmId
    novncPort := p.1
    agentPort := 3000
    novncUrl := railwayBase ++ "/vnc/" ++ vmId
    agentUrl := railwayBase ++ "/agent/" ++ vmId
    status := "initializing"
    serverId := jsOr serverId "default-cloud-server"
    serverName := "Cloud VM Server (Recommended)"
    createdVia := "mock-enhanced-vm" }
  (mockVM, { p.2 with runningVMs := Registry.set p.2.runningVMs vmId mockVM })

/-- Outcomes of the Docker backend calls made during `createVM`:
`ping` for the availability probe, `createContainer` yielding the container
id, `startContainer`, and `inspectPort` yielding the host port mapped to
the Chrome debug port (possibly unmapped). -/
structure Env where
  ping : Except String Unit
  createContainer : Except String String
  startContainer : Except String Unit
  inspectPort : Except String (Option Nat)
  deriving Repr

/-- The `try` block of the Docker-variant `createVM`. A backend error
escapes together with the service state current at the throw point (the
port-counter mutation persists across the throw). -/
def createVMBody (env : Env) (vmId name serverId : String) (s : Service) :
    Except (String × Service) (VM × Service) :=
  match isAvailable env.ping with
  | .error e => .error (e, s)
  | .ok avail =>
    if !avail then .ok (createMockVM vmId name serverId s)
    else
      let p := getNextPort s
      match env.createContainer with
      | .error e => .error (e, p.2)
      | .ok cid =>
        match env.startContainer with
        | .error e => .error (e, p.2)
        | .ok _ =>
          match env.inspectPort with
          | .error e => .error (e, p.2)
          | .ok chromePort =>
            let realVM : VM := {
              containerId := some cid
              containerName := "chrome-vm-" ++ vmId
              novncPort := p.1
              agentPort := chromePort.getD 9222
              novncUrl := railwayBase ++ "/vnc/" ++ vmId
              agentUrl := railwayBase ++ "/agent/" ++ vmId
              status := "initializing"
              serverId := jsOr serverId "default-cloud-server"
              serverName := "Cloud VM Server (Recommended)"
              createdVia := "docker-real-vm"
              container := some cid }
            .ok (realVM,
              { p.2 with runningVMs := Registry.set p.2.runningVMs vmId realVM })

/-- The Docker-variant `createVM`: the `try` block with its `catch`
falling back to `createMockVM` from the state at the throw point. -/
def createVM (env : Env) (vmId name serverId : String) (s : Service) :
    Except String (VM × Service) :=
  match createVMBody env vmId name serverId s with
  | .ok r => .ok r
  | .error es => .ok (createMockVM vmId name serverId es.2)

/-- One run of the readiness poll loop (`waitForContainerReady` body):
outcome, number of probe attempts performed, and the sleep durations (ms)
in order. `probe k` is the success of the k-th probe (`inspect` reporting
running plus the Chrome debug endpoint responding). -/
def waitLoop (probe : Nat → Bool) (attempts : Nat) :
    Nat → Except String Unit × Nat × List Nat
  | 0 => (.error "Container failed to become ready", 0, [])
  | fuel + 1 =>
    if probe attempts then (.ok (), 1, [])
    else
      let r := waitLoop probe (attempts + 1) fuel
      (r.1, r.2.1 + 1, 1000 :: r.2.2)

/-- `waitForContainerReady`: the poll loop with `maxAttempts = 30` and a
1000 ms sleep after every failed probe. -/
def waitForContainerReady (probe : Nat → Bool) :
    Except String Unit × Nat × List Nat :=
  waitLoop probe 0 30

/-- The readiness callback scheduled by `createVM`: `status = 'ready'` on
poll success, `status = 'error'` when the poll throws. -/
def readinessCallback (vm : VM) (r : Except String Unit) : VM :=
  match r with
  | .ok _ => { vm with status := "ready" }
  | .error _ => { vm with status := "error" }

/-- The delayed status flip scheduled by `createMockVM`. -/
def mockReadyCallback (vm : VM) : VM := { vm with status := "ready" }

/-- The Docker-variant `deleteVM`. `teardown` is the combined outcome of
`container.stop()` / `container.remove()`, attempted only for real
container-backed entries; on a teardown error the catch block rethrows and
the registry is left unchanged. -/
def deleteVM (teardown : Except String Unit) (vmId : String) (s : Service) :
    Except String (Bool × Service) :=
  match Registry.find s.runningVMs vmId with
  | none => .error ("VM " ++ vmId ++ " not found")
  | some vm =>
    if vm.container.isSome && vm.createdVia == "docker-real-vm" then
      match teardown with
      | .error e => .error e
      | .ok _ =>
        .ok (true, { s with runningVMs := Registry.erase s.runningVMs vmId })
    else
      .ok (true, { s with runningVMs := Registry.erase s.runningVMs vmId })

/-- The object returned by the Docker-variant `getVMStatus`. -/
structure StatusView where
  vmId : String
  status : String
  novncUrl : String
  agentUrl : String
  containerId : Option String
  deriving DecidableEq, Repr

/-- The Docker-variant `getVMStatus`. For a real container-backed entry the
status is overwritten from the live `inspect` probe (`running → 'ready'`,
not running → `'stopped'`, probe error → `'error'`); an absent id throws
a not-found error. -/
def getVMStatus (inspectRunning : Except String Bool) (vmId : String)
    (s : Service) : Except String (StatusView × Service) :=
  match Registry.find s.runningVMs vmId with
  | none => .error ("VM " ++ vmId ++ " not found")
  | some vm =>
    let vm' :=
      if vm.container.isSome && vm.createdVia == "docker-real-vm" then
        match inspectRunning with
        | .ok true => { vm with status := "ready" }
        | .ok false => { vm with status := "stopped" }
        | .error _ => { vm with status := "error" }
      else vm
    .ok ({ vmId := vmId, status := vm'.status, novncUrl := vm'.novncUrl,
           agentUrl := vm'.agentUrl, containerId := vm'.containerId },
         { s with runningVMs := Registry.set s.runningVMs vmId vm' })

end Docker

namespace Cloudflare

/-- Base URL of the Cloudflare Workers VM hosting service. -/
def vmHostingUrl : String := "https://chrome-vm-workers.mgmt-5e1.workers.dev"

/-- Mutable state of the Cloudflare-variant `RealVMService`: just the
registry (no port counter). -/
structure Service where
  runningVMs : Registry VM := []
  deriving DecidableEq, Repr

/-- `isAvailable` (Cloudflare variant): health probe resolving to an HTTP
status, `status === 200`; the catch block returns `false`. -/
def isAvailable (health : Except String Nat) : Except String Bool :=
  match health with
  | .ok code => .ok (code == 200)
  | .error _ => .ok false

/-- `createMockVM` (Cloudflare variant): synthesize the mock descriptor
carrying the failure message and register it. `_name` is accepted but not
stored, as in the source. -/
def createMockVM (vmId _name serverId errorMessage : String) (s : Service) :
    VM × Service :=
  let mockVM : VM := {
    containerId := some ("mock-container-" ++ vmId)
    containerName := "mock-vm-" ++ vmId
    novncPort := 6080
    agentPort := 3000
    novncUrl := vmHostingUrl ++ "/vms/" ++ vmId ++ "/novnc"
    agentUrl := vmHostingUrl ++ "/vms/" ++ vmId ++ "/agent"
    status := "ready"
    serverId := jsOr serverId "default-cloud-server"
    serverName := "Cloudflare Workers VM Hosting (Mock)"
    createdVia := "cloudflare-workers-mock"
    vmId := some vmId
    error := some errorMessage }
  (mockVM, { runningVMs := Registry.set s.runningVMs vmId mockVM })

/-- A resolved response of the remote create call (`POST /vms`). -/
structure CreateResponse where
  status : Nat
  statusText : String
  dataVmId : String
  dataStatus : String
  deriving DecidableEq, Repr

/-- The Cloudflare-variant `createVM`: the remote create call is issued
without an availability check; a 201 response registers a real descriptor,
any other resolved status throws inside the `try`, and the catch block
falls back to `createMockVM` with the failure message. -/
def createVM (remote : Except String CreateResponse)
    (vmId name serverId : String) (s : Service) : VM × Service :=
  match remote with
  | .ok resp =>
    if resp.status == 201 then
      let realVM : VM := {
        containerId := some resp.dataVmId
        containerName := "chrome-vm-" ++ vmId
        novncPort := 6080
        agentPort := 3000
        novncUrl := vmHostingUrl ++ "/vms/" ++ resp.dataVmId ++ "/novnc"
        agentUrl := vmHostingUrl ++ "/vms/" ++ resp.dataVmId ++ "/agent"
        status := resp.dataStatus
        serverId := jsOr serverId "default-cloud-server"
        serverName := "Cloudflare Workers VM Hosting"
        createdVia := "cloudflare-workers"
        vmId := some resp.dataVmId }
      (realVM, { runningVMs := Registry.set s.runningVMs vmId realVM })
    else
      createMockVM vmId name serverId
        ("Failed to create VM: " ++ toString resp.status ++ " " ++ resp.statusText) s
  | .error msg => createMockVM vmId name serverId msg s

/-- A resolved response of a remote `GET /vms/:id` call. -/
structure FetchData where
  status : Nat
  dataContainerId : Option String
  dataStatus : String
  dataLastActivity : String
  deriving DecidableEq, Repr

/-- The Cloudflare-variant `getVMStatus`. A registered entry is refreshed
opportunistically from the remote API (`refresh`) and returned even when
the refresh fails; an unregistered id is fetched from the remote API
(`fetch`) and, when that fails or resolves non-200, a mock descriptor is
created, registered and returned. -/
def getVMStatus (refresh fetch : Except String FetchData) (vmId : String)
    (s : Service) : VM × Service :=
  match Registry.find s.runningVMs vmId with
  | some vm =>
    match refresh with
    | .ok d =>
      if d.status == 200 then
        let vm' := { vm with status := d.dataStatus,
                             lastActivity := d.dataLastActivity }
        (vm', { runningVMs := Registry.set s.runningVMs vmId vm' })
      else (vm, s)
    | .error _ => (vm, s)
  | none =>
    match fetch with
    | .ok d =>
      if d.status == 200 then
        let realVM : VM := {
          containerId := some (d.dataContainerId.getD vmId)
          containerName := "chrome-vm-" ++ vmId
          novncPort := 6080
          agentPort := 3000
          novncUrl := vmHostingUrl ++ "/vms/" ++ vmId ++ "/novnc"
          agentUrl := vmHostingUrl ++ "/vms/" ++ vmId ++ "/agent"
          status := d.dataStatus
          serverId := "default-cloud-server"
          serverName := "Cloudflare Workers VM Hosting"
          createdVia := "cloudflare-workers"
          vmId := some vmId }
        (realVM, { runningVMs := Registry.set s.runningVMs vmId realVM })
      else
        createMockVM vmId ("Mock VM for " ++ vmId) "default-cloud-server"
          "VM not found in active containers." s
    | .error _ =>
      createMockVM vmId ("Mock VM for " ++ vmId) "default-cloud-server"
        "VM not found in active containers." s

/-- The Cloudflare-variant `stopVM`. The remote delete is attempted only
for registered entries carrying a remote vm id; whatever its outcome, the
registry entry is removed and `{success: true}` is returned. -/
def stopVM (remote : Except String Nat) (vmId : String) (s : Service) :
    Except String (Bool × Service) :=
  match Registry.find s.runningVMs vmId with
  | some vm =>
    if vm.vmId.isSome then
      match remote with
      | .ok code =>
        if code == 200 then
          .ok (true, { runningVMs := Registry.erase s.runningVMs vmId })
        else
          .ok (true, { runningVMs := Registry.erase s.runningVMs vmId })
      | .error _ =>
        .ok (true, { runningVMs := Registry.erase s.runningVMs vmId })
    else .ok (true, { runningVMs := Registry.erase s.runningVMs vmId })
  | none => .ok (true, { runningVMs := Registry.erase s.runningVMs vmId })

/-- The Cloudflare-variant `startVM`: a registered entry with a remote vm
id whose remote start resolves 200 has its status overwritten to `'ready'`;
a resolved non-200 or a missing entry yields `{success: false}`; a thrown
remote error is rethrown by the catch block. `now` models
`new Date().toISOString()`. -/
def startVM (remote : Except String Nat) (now vmId : String) (s : Service) :
    Except String (Bool × Service) :=
  match Registry.find s.runningVMs vmId with
  | some vm =>
    if vm.vmId.isSome then
      match remote with
      | .ok code =>
        if code == 200 then
          let vm' := { vm with status := "ready", lastActivity := now }
          .ok (true, { runningVMs := Registry.set s.runningVMs vmId vm' })
        else .ok (false, s)
      | .error e => .error e
    else .ok (false, s)
  | none => .ok (false, s)

/-- The Cloudflare-variant `restartVM`: a registered entry with a remote
vm id whose remote restart resolves 200 has its status overwritten to
`'initializing'` (whatever it was before); otherwise as `startVM`. -/
def restartVM (remote : Except String Nat) (now vmId : String) (s : Service) :
    Except String (Bool × Service) :=
  match Registry.find s.runningVMs vmId with
  | some vm =>
    if vm.vmId.isSome then
      match remote with
      | .ok code =>
        if code == 200 then
          let vm' := { vm with status := "initializing", lastActivity := now }
          .ok (true, { runningVMs := Registry.set s.runningVMs vmId vm' })
        else .ok (false, s)
      | .error e => .error e
    else .ok (false, s)
  | none => .ok (false, s)

end Cloudflare

namespace Railway

/-- The descriptor object built by `railwayVMService.js`
(`createEnhancedMockVM`): every field is populated. -/
structure RVM where
  containerId : String
  containerName : String
  novncPort : Nat
  agentPort : Nat
  novncUrl : String
  agentUrl : String
  status : String
  serverId : String
  serverName : String
  createdVia : String
  error : String
  vmId : String
  instanceType : String
  memory : String
  cpu : String
  storage : String
  lastActivity : String
  deriving DecidableEq, Repr

/-- `isAvailable` (Railway): missing API key reports `false` without
probing; with a key, a resolved probe reports `status === 200` and a
thrown probe error is caught and reported as `true` (optimistic default
to allow testing with mock VMs). -/
def isAvailable (hasApiKey : Bool) (probe : Except String Nat) :
    Except String Bool :=
  if !hasApiKey then .ok false
  else
    match probe with
    | .ok code => .ok (code == 200)
    | .error _ => .ok true

def getMemoryForInstanceType (t : String) : String :=
  if t = "t3.micro" then "1GB"
  else if t = "t3.small" then "2GB"
  else if t = "t3.medium" then "4GB"
  else if t = "t3.large" then "8GB"
  else if t = "t3.xlarge" then "16GB"
  else if t = "t3.2xlarge" then "32GB"
  else "4GB"

def getCPUForInstanceType (t : String) : String :=
  if t = "t3.micro" then "2 vCPU"
  else if t = "t3.small" then "2 vCPU"
  else if t = "t3.medium" then "2 vCPU"
  else if t = "t3.large" then "2 vCPU"
  else if t = "t3.xlarge" then "4 vCPU"
  else if t = "t3.2xlarge" then "8 vCPU"
  else "2 vCPU"

def getStorageForInstanceType (t : String) : String :=
  if t = "t3.micro" then "8GB"
  else if t = "t3.small" then "20GB"
  else if t = "t3.medium" then "50GB"
  else if t = "t3.large" then "100GB"
  else if t = "t3.xlarge" then "200GB"
  else if t = "t3.2xlarge" then "500GB"
  else "50GB"

def workersBase : String := "https://chrome-vm-workers.mgmt-5e1.workers.dev"

/-- `createEnhancedMockVM`: synthesize the enhanced mock descriptor (after
a simulated provisioning delay) and register it. `now` models
`new Date().toISOString()`; `_name` is accepted but not stored. -/
def createEnhancedMockVM (vmId _name serverId instanceType errorMessage now : String)
    (r : Registry RVM) : RVM × Registry RVM :=
  let mockVM : RVM := {
    containerId := "railway-vm-" ++ vmId
    containerName := "railway-vm-" ++ vmId
    novncPort := 6080
    agentPort := 3000
    novncUrl := workersBase ++ "/vms/" ++ vmId ++ "/novnc"
    agentUrl := workersBase ++ "/vms/" ++ vmId ++ "/agent"
    status := "ready"
    serverId := jsOr serverId "default-railway-server"
    serverName := "Railway VM Hosting (Enhanced Mock)"
    createdVia := "railway-enhanced"
    error := errorMessage
    vmId := vmId
    instanceType := instanceType
    memory := getMemoryForInstanceType instanceType
    cpu := getCPUForInstanceType instanceType
    storage := getStorageForInstanceType instanceType
    lastActivity := now }
  (mockVM, Registry.set r vmId mockVM)

/-- The status record returned by the Railway `getVMStatus`. -/
structure StatusResult where
  status : String
  memory : Option String := none
  cpu : Option String := none
  storage : Option String := none
  lastActivity : Option String := none
  deriving DecidableEq, Repr

/-- `getVMStatus` (Railway): an absent id yields `{status: 'not_found'}`
(no throw, no fabricated descriptor); a registered entry reports its
cached fields. -/
def getVMStatus (vmId : String) (r : Registry RVM) : StatusResult :=
  match Registry.find r vmId with
  | none => { status := "not_found" }
  | some vm =>
    { status := vm.status, memory := some vm.memory, cpu := some vm.cpu,
      storage := some vm.storage, lastActivity := some vm.lastActivity }

/-- `deleteVM` (Railway): an absent id throws `'VM not found'`; a present
id is removed from the registry with `{success: true}` (no backend call). -/
def deleteVM (vmId : String) (r : Registry RVM) :
    Except String (Bool × Registry RVM) :=
  match Registry.find r vmId with
  | none => .error "VM not found"
  | some _ => .ok (true, Registry.erase r vmId)

end Railway

namespace GoogleCloud

/-- `isAvailable` (Google Cloud): missing credentials (no access token, no
API key, no credentials file) reports `false` without probing; with
credentials, a resolved probe reports `status === 200` and a thrown probe
error is caught and reported as `true` (optimistic default). -/
def isAvailable (hasCredentials : Bool) (probe : Except String Nat) :
    Except String Bool :=
  if !hasCredentials then .ok false
  else
    match probe with
    | .ok code => .ok (code == 200)
    | .error _ => .ok true

end GoogleCloud

namespace Docker

/-- One orchestrated operation on the Docker-variant service, carrying the
backend outcomes it observes. -/
inductive Op
  | create (env : Env) (vmId name serverId : String)
  | destroy (teardown : Except String Unit) (vmId : String)
  | status (inspectRunning : Except String Bool) (vmId : String)

/-- The service state after one operation; an operation that throws leaves
the state as it was at the throw point (for `deleteVM` and `getVMStatus`
that is the entry state). -/
def step (s : Service) (op : Op) : Service :=
  match op with
  | .create env vmId name serverId =>
    match createVM env vmId name serverId s with
    | .ok r => r.2
    | .error _ => s
  | .destroy teardown vmId =>
    match deleteVM teardown vmId s with
    | .ok r => r.2
    | .error _ => s
  | .status ir vmId =>
    match getVMStatus ir vmId s with
    | .ok r => r.2
    | .error _ => s

/-- The service state reached from a fresh service by a sequence of
operations. -/
def run (ops : List Op) : Service := ops.foldl step initService

/-- Every registered NoVNC port is below the allocation counter. -/
def PortBound (s : Service) : Prop :=
  ∀ p ∈ s.runningVMs, p.2.novncPort < s.currentPort

/-- No two registry entries carry the same NoVNC port. -/
def PortsDistinct (r : Registry VM) : Prop :=
  r.Pairwise (fun p q => p.2.novncPort ≠ q.2.novncPort)

/-- The port-allocation invariant of the Docker-variant service. -/
def Inv (s : Service) : Prop := PortBound s ∧ PortsDistinct s.runningVMs

/-- The service state after `n` bare allocator calls from a fresh service. -/
def allocN : Nat → Service
  | 0 => initService
  | n + 1 => (getNextPort (allocN n)).2

/-- The port returned by the `n`-th allocator call (counting from 0) on a
fresh service. -/
def portAt (n : Nat) : Nat := (getNextPort (allocN n)).1

/-- An environment in which every Docker backend call fails. -/
def envDown : Env :=
  { ping := .error "connect ENOENT /var/run/docker.sock"
    createContainer := .error "connect ENOENT /var/run/docker.sock"
    startContainer := .error "connect ENOENT /var/run/docker.sock"
    inspectPort := .error "connect ENOENT /var/run/docker.sock" }

/-- An environment in which every Docker backend call succeeds. -/
def envUp : Env :=
  { ping := .ok ()
    createContainer := .ok "c0ffee"
    startContainer := .ok ()
    inspectPort := .ok (some 49222) }

/-- A registered descriptor of a real container-backed VM, as built by the
real-path `createVM`. -/
def dockerRealVM : VM :=
  { containerId := some "c0ffee"
    containerName := "chrome-vm-vm1"
    novncPort := 6080
    agentPort := 49222
    novncUrl := railwayBase ++ "/vnc/vm1"
    agentUrl := railwayBase ++ "/agent/vm1"
    status := "ready"
    serverId := "srv-1"
    serverName := "Cloud VM Server (Recommended)"
    createdVia := "docker-real-vm"
    container := some "c0ffee" }

/-- A service holding the single real container-backed VM `vm1`. -/
def serviceWithReal : Service :=
  { runningVMs := [("vm1", dockerRealVM)], currentPort := 6081 }

/-- `dockerRealVM` as rewritten by a `getVMStatus` probe reporting the
container not running. -/
def dockerStoppedVM : VM := { dockerRealVM with status := "stopped" }

/-- The status view returned with `dockerStoppedVM`. -/
def stoppedView : StatusView :=
  { vmId := "vm1", status := "stopped", novncUrl := dockerRealVM.novncUrl,
    agentUrl := dockerRealVM.agentUrl, containerId := dockerRealVM.containerId }

/-- Two creation requests against an unreachable Docker daemon. -/
def demoOps : List Op :=
  [Op.create envDown "a" "A" "srv", Op.create envDown "b" "B" "srv"]

/-- The mock descriptor registered for `a` by the first demo operation. -/
def mockA : VM := (createMockVM "a" "A" "srv" initService).1

/-- The service state after the first demo operation. -/
def serviceA : Service := (createMockVM "a" "A" "srv" initService).2

/-- The mock descriptor registered for `b` by the second demo operation. -/
def mockB : VM := (createMockVM "b" "B" "srv" serviceA).1

end Docker

namespace Cloudflare

/-- A registered Cloudflare descriptor in state `ready`, carrying a remote
vm id. -/
def cfReadyVM : VM :=
  { containerId := some "cf-be-1"
    containerName := "chrome-vm-vm1"
    novncPort := 6080
    agentPort := 3000
    status := "ready"
    serverId := "srv-cf"
    serverName := "Cloudflare Workers VM Hosting"
    createdVia := "cloudflare-workers"
    vmId := some "cf-be-1" }

/-- A Cloudflare service holding the single ready VM `vm1`. -/
def serviceWithReady : Service := { runningVMs := [("vm1", cfReadyVM)] }

/-- `cfReadyVM` as rewritten by a successful `restartVM` at time `t0`. -/
def cfRestartedVM : VM :=
  { cfReadyVM with status := "initializing", lastActivity := "t0" }

/-- `cfReadyVM` as rewritten by a successful `startVM` at time `t0`. -/
def cfStartedVM : VM :=
  { cfReadyVM with status := "ready", lastActivity := "t0" }

end Cloudflare

/-! ### Registry lemmas -/

theorem Registry.find_set_self {α : Type} (r : Registry α) (k : String) (v : α) :
    Registry.find (Registry.set r k v) k = some v := by
  simp [Registry.find, Registry.set, List.find?]

theorem Registry.find_erase_self {α : Type} (r : Registry α) (k : String) :
    Registry.find (Registry.erase r k) k = none := by
  induction r with
  | nil => rfl
  | cons p t ih =>
    by_cases h : p.1 == k
    · simp only [Registry.erase, Registry.find, List.filter_cons, h,
        Bool.not_true, if_false] at ih ⊢
      exact ih
    · simp only [Registry.erase, Registry.find, List.filter_cons, h,
        Bool.not_false, if_true] at ih ⊢
      simp only [List.find?_cons, h]
      exact ih

theorem Registry.find_mem {α : Type} {r : Registry α} {k : String} {v : α}
    (h : Registry.find r k = some v) : (k, v) ∈ r := by
  unfold Registry.find at h
  cases hf : List.find? (fun p => p.1 == k) r with
  | none => rw [hf] at h; simp at h
  | some pr =>
    rw [hf] at h
    simp only [Option.map_some', Option.some.injEq] at h
    have hm := List.mem_of_find?_eq_some hf
    have hp := List.find?_some hf
    have h1 : pr.1 = k := by simpa using hp
    have : pr = (k, v) := by
      cases pr with
      | mk a b => simp only at h1 h; rw [h1, h]
    rwa [this] at hm

theorem Registry.mem_erase {α : Type} {r : Registry α} {k : String}
    {q : String × α} (h : q ∈ Registry.erase r k) : q ∈ r ∧ q.1 ≠ k := by
  have hq := List.mem_filter.mp h
  refine ⟨hq.1, ?_⟩
  simpa using hq.2

/-! ### Docker allocator and invariant lemmas -/

namespace Docker

theorem allocN_currentPort (n : Nat) : (allocN n).currentPort = 6080 + n := by
  induction n with
  | zero => rfl
  | succ n ih => simp [allocN, getNextPort, ih]; omega

theorem portAt_eq (n : Nat) : portAt n = 6080 + n := by
  simp [portAt, getNextPort, allocN_currentPort]

/-- The port-difference relation is symmetric. -/
theorem portRel_symm :
    Symmetric (fun p q : String × VM => p.2.novncPort ≠ q.2.novncPort) :=
  fun _ _ h => h.symm

/-- Registering a descriptor whose port is at least the current counter,
while raising the counter above that port, preserves the invariant. -/
theorem inv_set_fresh (s : Service) (k : String) (vm : VM) (c' : Nat)
    (h : Inv s) (h1 : s.currentPort ≤ vm.novncPort) (h2 : vm.novncPort < c') :
    Inv { runningVMs := Registry.set s.runningVMs k vm, currentPort := c' } := by
  obtain ⟨hb, hd⟩ := h
  constructor
  · intro p hp
    rcases List.mem_cons.mp hp with rfl | hp'
    · exact h2
    · have h3 := hb _ (Registry.mem_erase hp').1
      show p.2.novncPort < c'
      omega
  · refine List.pairwise_cons.mpr ⟨?_, ?_⟩
    · intro q hq
      have h3 := hb _ (Registry.mem_erase hq).1
      show vm.novncPort ≠ q.2.novncPort
      omega
    · exact hd.sublist (List.filter_sublist _)

/-- Overwriting a registered descriptor with one carrying the same port
(and leaving the counter alone) preserves the invariant. -/
theorem inv_set_same (s : Service) (k : String) (vm vm' : VM)
    (h : Inv s) (hfind : Registry.find s.runningVMs k = some vm)
    (hport : vm'.novncPort = vm.novncPort) :
    Inv { s with runningVMs := Registry.set s.runningVMs k vm' } := by
  obtain ⟨hb, hd⟩ := h
  have hmem : (k, vm) ∈ s.runningVMs := Registry.find_mem hfind
  constructor
  · intro p hp
    rcases List.mem_cons.mp hp with rfl | hp'
    · simpa [hport] using hb _ hmem
    · exact hb _ (Registry.mem_erase hp').1
  · refine List.pairwise_cons.mpr ⟨?_, ?_⟩
    · intro q hq
      obtain ⟨hqmem, hqk⟩ := Registry.mem_erase hq
      have hne : (k, vm) ≠ q := by
        intro hcontra
        exact hqk (by rw [← hcontra])
      have := hd.forall portRel_symm hmem hqmem hne
      simpa [hport] using this
    · exact hd.sublist (List.filter_sublist _)

/-- Removing an entry preserves the invariant. -/
theorem inv_erase (s : Service) (k : String) (h : Inv s) :
    Inv { s with runningVMs := Registry.erase s.runningVMs k } := by
  obtain ⟨hb, hd⟩ := h
  exact ⟨fun p hp => hb _ (Registry.mem_erase hp).1,
    hd.sublist (List.filter_sublist _)⟩

/-- Every `createVM` run succeeds, registers exactly one descriptor under
the requested id, and gives it a port at least the entry counter while
raising the counter above that port. -/
theorem createVM_state_shape (env : Env) (vmId name serverId : String)
    (s : Service) :
    ∃ vm s', createVM env vmId name serverId s = .ok (vm, s') ∧
      s'.runningVMs = Registry.set s.runningVMs vmId vm ∧
      s.currentPort ≤ vm.novncPort ∧ vm.novncPort < s'.currentPort := by
  cases hping : env.ping with
  | error e =>
    simp only [createVM, createVMBody, isAvailable, hping, Bool.not_false,
      if_true]
    exact ⟨_, _, rfl, rfl, Nat.le_refl _, Nat.lt_succ_self _⟩
  | ok u =>
    cases hcc : env.createContainer with
    | error e =>
      simp only [createVM, createVMBody, isAvailable, hping, hcc,
        Bool.not_true, if_false]
      exact ⟨_, _, rfl, rfl, Nat.le_succ _, Nat.lt_succ_self _⟩
    | ok cid =>
      cases hsc : env.startContainer with
      | error e =>
        simp only [createVM, createVMBody, isAvailable, hping, hcc, hsc,
          Bool.not_true, if_false]
        exact ⟨_, _, rfl, rfl, Nat.le_succ _, Nat.lt_succ_self _⟩
      | ok v =>
        cases hip : env.inspectPort with
        | error e =>
          simp only [createVM, createVMBody, isAvailable, hping, hcc, hsc,
            hip, Bool.not_true, if_false]
          exact ⟨_, _, rfl, rfl, Nat.le_succ _, Nat.lt_succ_self _⟩
        | ok chromePort =>
          simp only [createVM, createVMBody, isAvailable, hping, hcc, hsc,
            hip, Bool.not_true, if_false]
          exact ⟨_, _, rfl, rfl, Nat.le_refl _, Nat.lt_succ_self _⟩

/-- `deleteVM` either throws, or succeeds by removing exactly the
requested entry. -/
theorem deleteVM_state_shape (td : Except String Unit) (vmId : String)
    (s : Service) :
    (∃ e, deleteVM td vmId s = .error e) ∨
    deleteVM td vmId s =
      .ok (true, { s with runningVMs := Registry.erase s.runningVMs vmId }) := by
  unfold deleteVM
  cases hf : Registry.find s.runningVMs vmId with
  | none => exact .inl ⟨_, rfl⟩
  | some vm =>
    by_cases hc : (vm.container.isSome && vm.createdVia == "docker-real-vm") = true
    · cases td with
      | error e => simp only [hc, if_true]; exact .inl ⟨_, rfl⟩
      | ok v => simp only [hc, if_true]; exact .inr trivial
    · simp only [eq_false_of_ne_true hc, Bool.false_eq_true, if_false]
      exact .inr trivial

/-- `getVMStatus` either throws on an absent id, or re-registers a
descriptor carrying the same port as the found entry. -/
theorem getVMStatus_state_shape (ir : Except String Bool) (vmId : String)
    (s : Service) :
    (∃ e, getVMStatus ir vmId s = .error e) ∨
    ∃ vm vm' sv, Registry.find s.runningVMs vmId = some vm ∧
      vm'.novncPort = vm.novncPort ∧
      getVMStatus ir vmId s =
        .ok (sv, { s with runningVMs := Registry.set s.runningVMs vmId vm' }) := by
  unfold getVMStatus
  cases hf : Registry.find s.runningVMs vmId with
  | none => exact .inl ⟨_, rfl⟩
  | some vm =>
    refine .inr ⟨vm, _, _, rfl, ?_, rfl⟩
    by_cases hc : (vm.container.isSome && vm.createdVia == "docker-real-vm") = true
    · simp only [hc, if_true]
      cases ir with
      | ok b => cases b <;> rfl
      | error e => rfl
    · simp only [eq_false_of_ne_true hc, Bool.false_eq_true, if_false]

/-- Each operation preserves the port-allocation invariant. -/
theorem step_inv (s : Service) (op : Op) (h : Inv s) : Inv (step s op) := by
  cases op with
  | create env vmId name serverId =>
    obtain ⟨vm, s', hok, hreg, h1, h2⟩ := createVM_state_shape env vmId name serverId s
    simp only [step, hok]
    have hres := inv_set_fresh s vmId vm s'.currentPort h h1 h2
    rw [← hreg] at hres
    exact hres
  | destroy td vmId =>
    rcases deleteVM_state_shape td vmId s with ⟨e, he⟩ | hok
    · simp only [step, he]; exact h
    · simp only [step, hok]; exact inv_erase s vmId h
  | status ir vmId =>
    rcases getVMStatus_state_shape ir vmId s with ⟨e, he⟩ | ⟨vm, vm', sv, hf, hp, hok⟩
    · simp only [step, he]; exact h
    · simp only [step, hok]; exact inv_set_same s vmId vm vm' h hf hp

/-- Each operation never lowers the port counter. -/
theorem step_counter_mono (s : Service) (op : Op) :
    s.currentPort ≤ (step s op).currentPort := by
  cases op with
  | create env vmId name serverId =>
    obtain ⟨vm, s', hok, _, h1, h2⟩ := createVM_state_shape env vmId name serverId s
    simp only [step, hok]
    omega
  | destroy td vmId =>
    rcases deleteVM_state_shape td vmId s with ⟨e, he⟩ | hok
    · simp only [step, he]; exact Nat.le_refl _
    · simp only [step, hok]; exact Nat.le_refl _
  | status ir vmId =>
    rcases getVMStatus_state_shape ir vmId s with ⟨e, he⟩ | ⟨vm, vm', sv, hf, hp, hok⟩
    · simp only [step, he]; exact Nat.le_refl _
    · simp only [step, hok]; exact Nat.le_refl _

/-- The invariant holds in every state reachable from a fresh service. -/
theorem run_inv (ops : List Op) : Inv (run ops) := by
  have hgen : ∀ (l : List Op) (s : Service), Inv s → Inv (l.foldl step s) := by
    intro l
    induction l with
    | nil => intro s hs; exact hs
    | cons op t ih => intro s hs; exact ih _ (step_inv s op hs)
  exact hgen ops initService
    ⟨fun p hp => absurd hp (List.not_mem_nil p), List.Pairwise.nil⟩

end Docker

/-! ### Claim theorems -/

/-- C5 counterexample: with the counter already beyond the valid port
range (65536 > 65535), the allocator still succeeds and returns the
out-of-range port 65536 — no fatal allocation error exists in the code. -/
theorem port_overflow_no_failure_c5_cex :
    (Docker.getNextPort { runningVMs := [], currentPort := 65536 }).1 = 65536 ∧
    65535 < (Docker.getNextPort { runningVMs := [], currentPort := 65536 }).1 := by
  exact ⟨rfl, by decide⟩

/-- C5 amended: port allocation never fails for any counter value:
`getNextPort` unconditionally returns the current counter and increments
it with no range check, so iterated allocation from the 6080 base
eventually returns ports beyond 65535 instead of raising a fatal
allocation error. -/
theorem port_allocation_never_fails_c5_amended :
    (∀ s, (Docker.getNextPort s).1 = s.currentPort ∧
      (Docker.getNextPort s).2 = { s with currentPort := s.currentPort + 1 }) ∧
    (∀ n, Docker.portAt n = 6080 + n) ∧
    (∃ n, 65535 < Docker.portAt n) := by
  refine ⟨fun s => ⟨rfl, rfl⟩, Docker.portAt_eq, ⟨59456, ?_⟩⟩
  rw [Docker.portAt_eq]
  omega

/-- C8 counterexample: the Docker-variant mock descriptor's backend
reference field `containerId` is populated with a synthetic string, not
absent or null. -/
theorem mock_handle_populated_c8_cex :
    (Docker.createMockVM "vm1" "Test" "srv" Docker.initService).1.containerId =
      some "mock-vm-vm1" ∧
    (Docker.createMockVM "vm1" "Test" "srv" Docker.initService).1.containerId ≠
      none := by
  exact ⟨rfl, by decide⟩

/-- C8 amended: mock descriptors never hold a live backend reference —
the Docker-variant mock's `container` field is `none` (real containers
store the dockerode reference there) and no backend-issued resource id is
stored — but the `containerId` field is populated with a synthetic
identifier derived from the caller's vm id, rather than being absent or
null. -/
theorem mock_no_backend_handle_c8_amended :
    (∀ vmId name serverId s,
      (Docker.createMockVM vmId name serverId s).1.container = none ∧
      (Docker.createMockVM vmId name serverId s).1.containerId =
        some ("mock-vm-" ++ vmId)) ∧
    (∀ vmId name serverId em s,
      (Cloudflare.createMockVM vmId name serverId em s).1.container = none ∧
      (Cloudflare.createMockVM vmId name serverId em s).1.containerId =
        some ("mock-container-" ++ vmId)) ∧
    (∀ vmId name serverId it em now r,
      (Railway.createEnhancedMockVM vmId name serverId it em now r).1.containerId =
        "railway-vm-" ++ vmId) := by
  exact ⟨fun _ _ _ _ => ⟨rfl, rfl⟩, fun _ _ _ _ _ => ⟨rfl, rfl⟩,
    fun _ _ _ _ _ _ _ => rfl⟩

/-- C9: every adapter's `isAvailable` resolves to a boolean and never
throws, and on a probe error each adapter returns its own fixed default:
the Docker adapter reports `false` (probe failure means unavailable), the
Railway and Google Cloud adapters report `true` (optimistically
available), and the Cloudflare-variant health check reports `false` —
the per-adapter asymmetry is preserved. -/
theorem isAvailable_never_throws_c9 :
    (∀ ping, ∃ b, Docker.isAvailable ping = .ok b) ∧
    (∀ e, Docker.isAvailable (.error e) = .ok false) ∧
    (∀ hasKey probe, ∃ b, Railway.isAvailable hasKey probe = .ok b) ∧
    (∀ e, Railway.isAvailable true (.error e) = .ok true) ∧
    (∀ hasCreds probe, ∃ b, GoogleCloud.isAvailable hasCreds probe = .ok b) ∧
    (∀ e, GoogleCloud.isAvailable true (.error e) = .ok true) ∧
    (∀ health, ∃ b, Cloudflare.isAvailable health = .ok b) ∧
    (∀ e, Cloudflare.isAvailable (.error e) = .ok false) := by
  refine ⟨fun ping => ?_, fun e => rfl, fun hasKey probe => ?_, fun e => rfl,
    fun hasCreds probe => ?_, fun e => rfl, fun health => ?_, fun e => rfl⟩
  · cases ping with
    | ok u => exact ⟨true, rfl⟩
    | error e => exact ⟨false, rfl⟩
  · cases hasKey with
    | false => exact ⟨false, rfl⟩
    | true =>
      cases probe with
      | ok code => exact ⟨code == 200, rfl⟩
      | error e => exact ⟨true, rfl⟩
  · cases hasCreds with
    | false => exact ⟨false, rfl⟩
    | true =>
      cases probe with
      | ok code => exact ⟨code == 200, rfl⟩
      | error e => exact ⟨true, rfl⟩
  · cases health with
    | ok code => exact ⟨code == 200, rfl⟩
    | error e => exact ⟨false, rfl⟩

/-- C10: the Cloudflare-variant `stopVM` returns `{success: true}` for
every vm id and every remote outcome — including ids never registered and
failing remote deletes — and always removes any registry entry for that
id; it never reports not-found and never throws. -/
theorem stopVM_always_succeeds_c10 :
    ∀ remote vmId s,
      Cloudflare.stopVM remote vmId s =
        .ok (true, { runningVMs := Registry.erase s.runningVMs vmId }) ∧
      Registry.find (Registry.erase s.runningVMs vmId) vmId = none := by
  intro remote vmId s
  refine ⟨?_, Registry.find_erase_self _ _⟩
  unfold Cloudflare.stopVM
  cases hf : Registry.find s.runningVMs vmId with
  | none => rfl
  | some vm =>
    by_cases h : vm.vmId.isSome = true
    · simp only [h, if_true]
      cases remote with
      | ok code =>
        by_cases hc : (code == 200) = true
        · simp only [hc, if_true]
        · simp only [eq_false_of_ne_true hc, Bool.false_eq_true, if_false]
      | error e => rfl
    · simp only [eq_false_of_ne_true h, Bool.false_eq_true, if_false]

/-- C4: port allocation is strictly monotone from the configured base
6080 — every allocator call returns a port strictly greater than every
previously returned one — the counter never decreases across operations,
and in every service state reachable from a fresh service no two
registered descriptors hold the same allocated NoVNC port. -/
theorem port_allocation_monotone_c4 :
    Docker.portAt 0 = 6080 ∧
    (∀ i j : Nat, i < j → Docker.portAt i < Docker.portAt j) ∧
    (∀ (s : Docker.Service) (op : Docker.Op),
      s.currentPort ≤ (Docker.step s op).currentPort) ∧
    (∀ ops : List Docker.Op,
      Docker.PortsDistinct (Docker.run ops).runningVMs) ∧
    (∀ ops : List Docker.Op,
      ∀ p ∈ (Docker.run ops).runningVMs, ∀ q ∈ (Docker.run ops).runningVMs,
        p.1 ≠ q.1 → p.2.novncPort ≠ q.2.novncPort) := by
  refine ⟨by rw [Docker.portAt_eq], fun i j hij => ?_,
    Docker.step_counter_mono, fun ops => (Docker.run_inv ops).2, ?_⟩
  · rw [Docker.portAt_eq, Docker.portAt_eq]
    omega
  · intro ops p hp q hq hne
    exact (Docker.run_inv ops).2.forall Docker.portRel_symm hp hq
      (fun hc => hne (by rw [hc]))

/-- C4 witness: the first two allocated ports are 6080 < 6081, and after
two mock creations the two registered descriptors carry distinct ports. -/
theorem port_allocation_monotone_c4_witness :
    Docker.portAt 0 < Docker.portAt 1 ∧
    Docker.mockB.novncPort ≠ Docker.mockA.novncPort := by
  constructor
  · exact port_allocation_monotone_c4.2.1 0 1 (by decide)
  · exact port_allocation_monotone_c4.2.2.2.2 Docker.demoOps
      ("b", Docker.mockB) (by decide) ("a", Docker.mockA) (by decide) (by decide)

/-! ### Readiness poll lemmas -/

namespace Docker

theorem waitLoop_probes_le (probe : Nat → Bool) (a f : Nat) :
    (waitLoop probe a f).2.1 ≤ f := by
  induction f generalizing a with
  | zero => exact Nat.le_refl 0
  | succ f ih =>
    simp only [waitLoop]
    by_cases h : probe a = true
    · rw [if_pos h]
      exact Nat.succ_le_succ (Nat.zero_le f)
    · rw [if_neg h]
      show (waitLoop probe (a + 1) f).2.1 + 1 ≤ f + 1
      exact Nat.succ_le_succ (ih (a + 1))

theorem waitLoop_sleeps_1000 (probe : Nat → Bool) (a f : Nat) :
    ∀ d ∈ (waitLoop probe a f).2.2, d = 1000 := by
  induction f generalizing a with
  | zero => intro d hd; exact absurd hd (List.not_mem_nil d)
  | succ f ih =>
    intro d hd
    simp only [waitLoop] at hd
    by_cases h : probe a = true
    · rw [if_pos h] at hd
      exact absurd hd (List.not_mem_nil d)
    · rw [if_neg h] at hd
      have hd' : d ∈ 1000 :: (waitLoop probe (a + 1) f).2.2 := hd
      rcases List.mem_cons.mp hd' with rfl | hmem
      · rfl
      · exact ih (a + 1) d hmem

theorem waitLoop_ok_iff (probe : Nat → Bool) (f : Nat) : ∀ a,
    ((waitLoop probe a f).1 = .ok ()) ↔ ∃ i, i < f ∧ probe (a + i) = true := by
  induction f with
  | zero =>
    intro a
    constructor
    · intro h; simp [waitLoop] at h
    · rintro ⟨i, hi, _⟩; omega
  | succ f ih =>
    intro a
    by_cases h : probe a = true
    · constructor
      · intro _
        exact ⟨0, Nat.succ_pos f, by simpa using h⟩
      · intro _
        show (waitLoop probe a (f + 1)).1 = .ok ()
        simp [waitLoop, h]
    · constructor
      · intro hok
        have hok' : (waitLoop probe (a + 1) f).1 = .ok () := by
          simpa [waitLoop, h] using hok
        obtain ⟨i, hi, hp⟩ := (ih (a + 1)).mp hok'
        refine ⟨i + 1, by omega, ?_⟩
        rwa [show a + (i + 1) = a + 1 + i by omega]
      · rintro ⟨i, hi, hp⟩
        cases i with
        | zero =>
          rw [Nat.add_zero] at hp
          exact absurd hp h
        | succ i =>
          have hp' : probe (a + 1 + i) = true := by
            rwa [show a + 1 + i = a + (i + 1) by omega]
          have hrec := (ih (a + 1)).mpr ⟨i, by omega, hp'⟩
          show (waitLoop probe a (f + 1)).1 = .ok ()
          simpa [waitLoop, h] using hrec

theorem waitLoop_result (probe : Nat → Bool) (f : Nat) : ∀ a,
    (waitLoop probe a f).1 = .ok () ∨
    (waitLoop probe a f).1 = .error "Container failed to become ready" := by
  induction f with
  | zero => intro a; exact .inr rfl
  | succ f ih =>
    intro a
    by_cases h : probe a = true
    · left; simp [waitLoop, h]
    · rcases ih (a + 1) with h1 | h1
      · left; simpa [waitLoop, h] using h1
      · right; simpa [waitLoop, h] using h1

end Docker

/-- C6: the readiness poll performs at most 30 probe attempts with
1000 ms sleeps between them; if some probe among the first 30 succeeds
the poll resolves and the callback sets the descriptor's status to
`ready`; if all 30 attempts fail the poll throws exactly
`'Container failed to become ready'` (a message containing
`"failed to become ready"`) and the callback sets the status to
`error`. -/
theorem readiness_poll_bounded_c6 (probe : Nat → Bool) (vm : VM) :
    (Docker.waitForContainerReady probe).2.1 ≤ 30 ∧
    (∀ d ∈ (Docker.waitForContainerReady probe).2.2, d = 1000) ∧
    ((∃ k, k < 30 ∧ probe k = true) →
      (Docker.waitForContainerReady probe).1 = .ok () ∧
      (Docker.readinessCallback vm
        (Docker.waitForContainerReady probe).1).status = "ready") ∧
    ((∀ k, k < 30 → probe k = false) →
      (Docker.waitForContainerReady probe).1 =
        .error "Container failed to become ready" ∧
      (∃ pre post : String, "Container failed to become ready" =
        pre ++ "failed to become ready" ++ post) ∧
      (Docker.readinessCallback vm
        (Docker.waitForContainerReady probe).1).status = "error") := by
  refine ⟨Docker.waitLoop_probes_le probe 0 30,
    Docker.waitLoop_sleeps_1000 probe 0 30, ?_, ?_⟩
  · rintro ⟨k, hk, hp⟩
    have hok : (Docker.waitForContainerReady probe).1 = .ok () := by
      unfold Docker.waitForContainerReady
      exact (Docker.waitLoop_ok_iff probe 30 0).mpr
        ⟨k, hk, by rwa [Nat.zero_add]⟩
    exact ⟨hok, by rw [hok]; rfl⟩
  · intro hall
    have herr : (Docker.waitForContainerReady probe).1 =
        .error "Container failed to become ready" := by
      unfold Docker.waitForContainerReady
      rcases Docker.waitLoop_result probe 30 0 with hok | herr
      · obtain ⟨i, hi, hp⟩ := (Docker.waitLoop_ok_iff probe 30 0).mp hok
        rw [Nat.zero_add] at hp
        rw [hall i hi] at hp
        exact absurd hp (by decide)
      · exact herr
    exact ⟨herr, ⟨"Container ", "", by decide⟩, by rw [herr]; rfl⟩

/-- C6 witness: a probe succeeding at attempt 10 makes the poll resolve;
a never-succeeding probe makes it throw the diagnostic message. -/
theorem readiness_poll_bounded_c6_witness :
    (Docker.waitForContainerReady (fun k => k == 10)).1 = .ok () ∧
    (Docker.waitForContainerReady (fun _ => false)).1 =
      .error "Container failed to become ready" := by
  constructor
  · exact ((readiness_poll_bounded_c6 (fun k => k == 10) {}).2.2.1
      ⟨10, by decide, by decide⟩).1
  · exact ((readiness_poll_bounded_c6 (fun _ => false) {}).2.2.2
      (fun k _ => rfl)).1

/-- C1: both `createVM` variants return a descriptor for every input and
every backend outcome and never propagate a failure to their caller: an
unavailable daemon or any thrown backend call degrades the Docker variant
to its registered `createMockVM` descriptor, and a thrown remote call or
a non-201 response degrades the Cloudflare variant to its `createMockVM`
descriptor carrying the failure message. -/
theorem createVM_always_succeeds_c1 :
    (∀ env vmId name serverId s, ∃ vm s',
      Docker.createVM env vmId name serverId s = .ok (vm, s')) ∧
    (∀ env vmId name serverId s e, env.ping = .error e →
      Docker.createVM env vmId name serverId s =
        .ok (Docker.createMockVM vmId name serverId s)) ∧
    (∀ env vmId name serverId s e, env.ping = .ok () →
      env.createContainer = .error e →
      Docker.createVM env vmId name serverId s =
        .ok (Docker.createMockVM vmId name serverId (Docker.getNextPort s).2)) ∧
    (∀ remote vmId name serverId s,
      (Cloudflare.createVM remote vmId name serverId s).1.createdVia =
        "cloudflare-workers" ∨
      (Cloudflare.createVM remote vmId name serverId s).1.createdVia =
        "cloudflare-workers-mock") ∧
    (∀ e vmId name serverId s,
      Cloudflare.createVM (.error e) vmId name serverId s =
        Cloudflare.createMockVM vmId name serverId e s) ∧
    (∀ resp vmId name serverId s, resp.status ≠ 201 →
      Cloudflare.createVM (.ok resp) vmId name serverId s =
        Cloudflare.createMockVM vmId name serverId
          ("Failed to create VM: " ++ toString resp.status ++ " " ++
            resp.statusText) s) := by
  refine ⟨?_, ?_, ?_, ?_, fun e vmId name serverId s => rfl, ?_⟩
  · intro env vmId name serverId s
    obtain ⟨vm, s', hok, _⟩ := Docker.createVM_state_shape env vmId name serverId s
    exact ⟨vm, s', hok⟩
  · intro env vmId name serverId s e h
    simp [Docker.createVM, Docker.createVMBody, Docker.isAvailable, h]
  · intro env vmId name serverId s e h1 h2
    simp [Docker.createVM, Docker.createVMBody, Docker.isAvailable, h1, h2]
  · intro remote vmId name serverId s
    cases remote with
    | error e => exact .inr rfl
    | ok resp =>
      by_cases h : (resp.status == 201) = true
      · left
        simp only [Cloudflare.createVM, h, if_true]
      · right
        simp only [Cloudflare.createVM, eq_false_of_ne_true h,
          Bool.false_eq_true, if_false]
        rfl
  · intro resp vmId name serverId s h
    have hb : (resp.status == 201) = false := by simpa using h
    simp only [Cloudflare.createVM, hb, Bool.false_eq_true, if_false]

/-- C1 witness: with the Docker daemon unreachable, `createVM` succeeds
with the mock descriptor; with the Cloudflare create call timing out,
`createVM` returns the mock descriptor carrying the timeout message. -/
theorem createVM_always_succeeds_c1_witness :
    Docker.createVM Docker.envDown "vm1" "Test" "srv-1" Docker.initService =
      .ok (Docker.createMockVM "vm1" "Test" "srv-1" Docker.initService) ∧
    Cloudflare.createVM (.error "timeout of 30000ms exceeded") "vm1" "Test"
        "srv-cf" {} =
      Cloudflare.createMockVM "vm1" "Test" "srv-cf"
        "timeout of 30000ms exceeded" {} := by
  exact ⟨createVM_always_succeeds_c1.2.1 Docker.envDown "vm1" "Test" "srv-1"
      Docker.initService "connect ENOENT /var/run/docker.sock" rfl,
    createVM_always_succeeds_c1.2.2.2.2.1 "timeout of 30000ms exceeded" "vm1"
      "Test" "srv-cf" {}⟩

/-- C2 counterexample: `restartVM` on a registered descriptor in state
`ready` (remote restart resolving 200) moves it back to `initializing` —
a Ready-to-Initializing transition the claim says never happens. -/
theorem restart_state_regression_c2_cex :
    (Registry.find Cloudflare.serviceWithReady.runningVMs "vm1").map VM.status
      = some "ready" ∧
    (Cloudflare.restartVM (.ok 200) "t0" "vm1"
        Cloudflare.serviceWithReady).map
      (fun r => (Registry.find r.2.runningVMs "vm1").map VM.status) =
      .ok (some "initializing") := by
  exact ⟨rfl, rfl⟩

/-- C2 amended: descriptor states are overwritten, not monotone:
`restartVM` (remote 200) sets a registered remote-backed descriptor's
state to `initializing` whatever it was, including `ready`; `startVM`
(remote 200) sets it to `ready`, including from `stopped`; and the
Docker-variant `getVMStatus` overwrites a container-backed descriptor's
state with the probe result — `ready` when running, `stopped` when not,
`error` on probe failure — regardless of the previous state. -/
theorem state_overwrite_c2_amended :
    (∀ now vmId s vm, Registry.find s.runningVMs vmId = some vm →
      vm.vmId.isSome = true →
      Cloudflare.restartVM (.ok 200) now vmId s = .ok (true,
        { runningVMs := Registry.set s.runningVMs vmId
                          ({ vm with status := "initializing",
                                     lastActivity := now }) })) ∧
    (∀ now vmId s vm, Registry.find s.runningVMs vmId = some vm →
      vm.vmId.isSome = true →
      Cloudflare.startVM (.ok 200) now vmId s = .ok (true,
        { runningVMs := Registry.set s.runningVMs vmId
                          ({ vm with status := "ready",
                                     lastActivity := now }) })) ∧
    (∀ vmId s vm, Registry.find s.runningVMs vmId = some vm →
      (vm.container.isSome && vm.createdVia == "docker-real-vm") = true →
      Docker.getVMStatus (.ok true) vmId s = .ok
        ({ vmId := vmId, status := "ready", novncUrl := vm.novncUrl,
           agentUrl := vm.agentUrl, containerId := vm.containerId },
         { s with runningVMs :=
                    Registry.set s.runningVMs vmId
                      ({ vm with status := "ready" }) }) ∧
      Docker.getVMStatus (.ok false) vmId s = .ok
        ({ vmId := vmId, status := "stopped", novncUrl := vm.novncUrl,
           agentUrl := vm.agentUrl, containerId := vm.containerId },
         { s with runningVMs :=
                    Registry.set s.runningVMs vmId
                      ({ vm with status := "stopped" }) }) ∧
      (∀ e, Docker.getVMStatus (.error e) vmId s = .ok
        ({ vmId := vmId, status := "error", novncUrl := vm.novncUrl,
           agentUrl := vm.agentUrl, containerId := vm.containerId },
         { s with runningVMs :=
                    Registry.set s.runningVMs vmId
                      ({ vm with status := "error" }) }))) := by
  refine ⟨?_, ?_, ?_⟩
  · intro now vmId s vm hf hv
    simp only [Cloudflare.restartVM, hf, hv, if_true]
    rfl
  · intro now vmId s vm hf hv
    simp only [Cloudflare.startVM, hf, hv, if_true]
    rfl
  · intro vmId s vm hf hc
    refine ⟨?_, ?_, fun e => ?_⟩ <;>
      simp only [Docker.getVMStatus, hf, hc, if_true]

/-- C2 amended witness: the overwrites at concrete registered services. -/
theorem state_overwrite_c2_amended_witness :
    Cloudflare.restartVM (.ok 200) "t0" "vm1" Cloudflare.serviceWithReady =
      .ok (true, { runningVMs := Registry.set Cloudflare.serviceWithReady.runningVMs "vm1" Cloudflare.cfRestartedVM }) ∧
    Cloudflare.startVM (.ok 200) "t0" "vm1" Cloudflare.serviceWithReady =
      .ok (true, { runningVMs := Registry.set Cloudflare.serviceWithReady.runningVMs "vm1" Cloudflare.cfStartedVM }) ∧
    Docker.getVMStatus (.ok false) "vm1" Docker.serviceWithReal =
      .ok (Docker.stoppedView, { Docker.serviceWithReal with runningVMs := Registry.set Docker.serviceWithReal.runningVMs "vm1" Docker.dockerStoppedVM }) := by
  refine ⟨state_overwrite_c2_amended.1 "t0" "vm1" Cloudflare.serviceWithReady
      Cloudflare.cfReadyVM (by decide) rfl,
    state_overwrite_c2_amended.2.1 "t0" "vm1" Cloudflare.serviceWithReady
      Cloudflare.cfReadyVM (by decide) rfl,
    (state_overwrite_c2_amended.2.2 "vm1" Docker.serviceWithReal
      Docker.dockerRealVM (by decide) (by decide)).2.1⟩

/-- C3 counterexample: the Cloudflare-variant `getVMStatus` on an id
absent from its registry, with the remote lookup failing, does not fail
with a not-found error: it fabricates a mock descriptor, registers it,
and returns it as a success. -/
theorem getStatus_fabricates_c3_cex :
    (Cloudflare.getVMStatus (.error "e") (.error "timeout of 5000ms exceeded")
        "ghost" {}).1.createdVia = "cloudflare-workers-mock" ∧
    (Registry.find ((Cloudflare.getVMStatus (.error "e")
        (.error "timeout of 5000ms exceeded") "ghost"
        ({} : Cloudflare.Service)).2).runningVMs "ghost").isSome = true := by
  decide

/-- C3 amended: the Docker-variant `getVMStatus` throws a not-found error
for an id absent from its registry, and the Railway adapter reports a
`not_found` status without fabricating a descriptor; but the
Cloudflare-variant `getVMStatus`, when the id is absent and the remote
lookup fails, creates, registers and returns a mock descriptor instead of
reporting not-found. -/
theorem getStatus_notfound_c3_amended :
    (∀ ir vmId s, Registry.find s.runningVMs vmId = none →
      Docker.getVMStatus ir vmId s =
        .error ("VM " ++ vmId ++ " not found")) ∧
    (∀ vmId r, Registry.find r vmId = none →
      Railway.getVMStatus vmId r = { status := "not_found" }) ∧
    (∀ refresh e vmId s, Registry.find s.runningVMs vmId = none →
      Cloudflare.getVMStatus refresh (.error e) vmId s =
        Cloudflare.createMockVM vmId ("Mock VM for " ++ vmId)
          "default-cloud-server" "VM not found in active containers." s) := by
  refine ⟨?_, ?_, ?_⟩
  · intro ir vmId s h
    simp only [Docker.getVMStatus, h]
  · intro vmId r h
    simp only [Railway.getVMStatus, h]
  · intro refresh e vmId s h
    simp only [Cloudflare.getVMStatus, h]

/-- C3 amended witness: the three behaviors at concrete absent ids. -/
theorem getStatus_notfound_c3_amended_witness :
    Docker.getVMStatus (.ok true) "ghost" Docker.initService =
      .error "VM ghost not found" ∧
    Railway.getVMStatus "ghost" ([] : Registry Railway.RVM) =
      { status := "not_found" } ∧
    Cloudflare.getVMStatus (.error "e") (.error "timeout") "ghost" {} =
      Cloudflare.createMockVM "ghost" "Mock VM for ghost"
        "default-cloud-server" "VM not found in active containers." {} := by
  exact ⟨getStatus_notfound_c3_amended.1 (.ok true) "ghost"
      Docker.initService rfl,
    getStatus_notfound_c3_amended.2.1 "ghost" [] rfl,
    getStatus_notfound_c3_amended.2.2 (.error "e") "timeout" "ghost" {} rfl⟩

/-- C7 counterexample: for a registered container-backed VM whose
container teardown fails, the first `deleteVM` call does not succeed: the
teardown error propagates (and the entry stays registered, since the
registry delete is never reached). -/
theorem delete_teardown_fails_c7_cex :
    Docker.deleteVM (.error "cannot stop container") "vm1"
      Docker.serviceWithReal = .error "cannot stop container" := by
  rfl

/-- C7 amended: `deleteVM` is idempotent in the spec's sense provided any
backing-container teardown succeeds: the first call on a registered id
succeeds and removes the entry (unconditionally for entries without a
live container; and for container-backed entries when teardown succeeds),
a second call then fails with a not-found error, and a call on a
never-registered id fails with a not-found error leaving the registry
unchanged; but when the teardown of a container-backed entry fails, the
error propagates and the entry remains registered. -/
theorem delete_idempotent_c7_amended :
    (∀ td vmId s vm, Registry.find s.runningVMs vmId = some vm →
      (vm.container.isSome && vm.createdVia == "docker-real-vm") = false →
      Docker.deleteVM td vmId s =
        .ok (true, { s with runningVMs := Registry.erase s.runningVMs vmId })) ∧
    (∀ vmId s vm, Registry.find s.runningVMs vmId = some vm →
      Docker.deleteVM (.ok ()) vmId s =
        .ok (true, { s with runningVMs := Registry.erase s.runningVMs vmId })) ∧
    (∀ e vmId s vm, Registry.find s.runningVMs vmId = some vm →
      (vm.container.isSome && vm.createdVia == "docker-real-vm") = true →
      Docker.deleteVM (.error e) vmId s = .error e) ∧
    (∀ td vmId s s', Docker.deleteVM (.ok ()) vmId s = .ok (true, s') →
      Docker.deleteVM td vmId s' = .error ("VM " ++ vmId ++ " not found")) ∧
    (∀ td vmId s, Registry.find s.runningVMs vmId = none →
      Docker.deleteVM td vmId s = .error ("VM " ++ vmId ++ " not found")) ∧
    (∀ vmId r (vm : Railway.RVM), Registry.find r vmId = some vm →
      Railway.deleteVM vmId r = .ok (true, Registry.erase r vmId) ∧
      Railway.deleteVM vmId (Registry.erase r vmId) =
        .error "VM not found") ∧
    (∀ vmId (r : Registry Railway.RVM), Registry.find r vmId = none →
      Railway.deleteVM vmId r = .error "VM not found") := by
  have hnone : ∀ td vmId (s : Docker.Service),
      Registry.find s.runningVMs vmId = none →
      Docker.deleteVM td vmId s = .error ("VM " ++ vmId ++ " not found") := by
    intro td vmId s h
    simp only [Docker.deleteVM, h]
  refine ⟨?_, ?_, ?_, ?_, hnone, ?_, ?_⟩
  · intro td vmId s vm hf hc
    simp only [Docker.deleteVM, hf, hc, Bool.false_eq_true, if_false]
  · intro vmId s vm hf
    by_cases hc : (vm.container.isSome && vm.createdVia == "docker-real-vm") = true
    · simp only [Docker.deleteVM, hf, hc, if_true]
    · simp only [Docker.deleteVM, hf, eq_false_of_ne_true hc,
        Bool.false_eq_true, if_false]
  · intro e vmId s vm hf hc
    simp only [Docker.deleteVM, hf, hc, if_true]
  · intro td vmId s s' h
    rcases Docker.deleteVM_state_shape (.ok ()) vmId s with ⟨e, he⟩ | hok
    · rw [he] at h
      exact absurd h (by simp)
    · rw [hok] at h
      have hs' :
          ({ s with runningVMs := Registry.erase s.runningVMs vmId } :
            Docker.Service) = s' := by
        have := h
        simp only [Except.ok.injEq, Prod.mk.injEq, true_and] at this
        exact this
      rw [← hs']
      exact hnone td vmId _ (Registry.find_erase_self s.runningVMs vmId)
  · intro vmId r vm hf
    constructor
    · simp only [Railway.deleteVM, hf]
    · simp only [Railway.deleteVM, Registry.find_erase_self]
  · intro vmId r h
    simp only [Railway.deleteVM, h]

/-- C7 amended witness: deleting the registered container-backed `vm1`
with a successful teardown removes its entry, and deleting the
never-registered `ghost` fails with a not-found error. -/
theorem delete_idempotent_c7_amended_witness :
    Docker.deleteVM (.ok ()) "vm1" Docker.serviceWithReal =
      .ok (true, { Docker.serviceWithReal with
        runningVMs := Registry.erase Docker.serviceWithReal.runningVMs "vm1" }) ∧
    Docker.deleteVM (.ok ()) "ghost" Docker.serviceWithReal =
      .error "VM ghost not found" := by
  exact ⟨delete_idempotent_c7_amended.2.1 "vm1" Docker.serviceWithReal
      Docker.dockerRealVM (by decide),
    delete_idempotent_c7_amended.2.2.2.2.1 (.ok ()) "ghost"
      Docker.serviceWithReal (by decide)⟩

end ChromeVM




